import Mathlib

/-!
Verification of the fund-ranking core: data model (`models/fund.py`),
relative scoring engine (`score_fund` and the `_score_*_relative`
helpers), provider-data normalization (`morningstar_client.py`,
`get_fund_data` / `_extract_fees_data` / `_fetch_api`), the batch fetch
loop (`batch_get_fund_data`) and the final ranking sort (`main.py`,
`analyze_sector`).

Numbers are modelled as exact rationals (`ℚ`); Python `datetime.now()`
is modelled as an explicit clock `ℕ → ℚ` giving the time (in days since
the epoch) returned by the k-th call within one scoring invocation; the
irrational five-year annualization map
`r ↦ ((1 + r/100) ** (1/5) - 1) * 100` is abstracted as a parameter
`ann : ℚ → ℚ`, and every theorem below holds for an arbitrary `ann`.
-/

namespace FundInsight

/-- `models/fund.py`, class `FundData`: one fund's canonical attributes.
Optional fields are `Option`; `float` fields are modelled as `ℚ`. -/
structure FundData where
  code : String
  name : String
  management_fee : ℚ
  custody_fee : ℚ
  subscription_fee : Option ℚ
  redemption_fee : Option ℚ
  sales_service_fee : Option ℚ
  transaction_cost : Option ℚ
  other_fees : Option ℚ
  total_annual_fee : Option ℚ
  scale : ℚ
  yearly_return : Option ℚ
  return_3year : Option ℚ
  return_5year : Option ℚ
  establish_date : Option String
  benchmark : Option String
  beats_benchmark : Option Bool
  beats_benchmark_amount : Option ℚ
  fund_type : Option String
deriving DecidableEq, Repr

/-- The per-dimension breakdown dict built by `score_fund`
(keys 费用合理性 / 规模适中性 / 短期业绩(YTD) / 长期业绩(5年) / 跑赢基准 / 稳定性). -/
structure ScoreBreakdown where
  fee : ℚ
  scaleFit : ℚ
  shortTerm : ℚ
  longTerm : ℚ
  bench : ℚ
  stability : ℚ
deriving DecidableEq, Repr

/-! ### Percentile-to-score band maps

Each `_score_*_relative` function ends with the same shape of code
(`# 映射到分数` block): an if/elif chain on the percentile.  These
definitions transcribe those chains verbatim. -/

/-- `_score_fees_relative`, lines 361-371: band map for the fee dimension. -/
def feeBand (p : ℚ) : ℚ :=
  if 0.9 ≤ p then 13 + (p - 0.9) / 0.1 * 2
  else if 0.7 ≤ p then 11 + (p - 0.7) / 0.2 * 1
  else if 0.3 ≤ p then 9 + (p - 0.3) / 0.4 * 1
  else if 0.1 ≤ p then 6 + (p - 0.1) / 0.2 * 2
  else max 0 (5 * p / 0.1)

/-- `_score_scale_relative`, lines 400-406: band map for the scale dimension. -/
def scaleBand (p : ℚ) : ℚ :=
  if 0.7 ≤ p then 12 + (p - 0.7) / 0.3 * 3
  else if 0.3 ≤ p then 9 + (p - 0.3) / 0.4 * 2
  else p / 0.3 * 8

/-- `_score_short_term_performance_relative`, lines 429-439. -/
def shortBand (p : ℚ) : ℚ :=
  if 0.9 ≤ p then 18 + (p - 0.9) / 0.1 * 2
  else if 0.7 ≤ p then 15 + (p - 0.7) / 0.2 * 2
  else if 0.3 ≤ p then 12 + (p - 0.3) / 0.4 * 2
  else if 0.1 ≤ p then 8 + (p - 0.1) / 0.2 * 3
  else max 0 (7 * p / 0.1)

/-- `_score_long_term_performance_relative`, lines 477-487. -/
def longBand (p : ℚ) : ℚ :=
  if 0.9 ≤ p then 22 + (p - 0.9) / 0.1 * 3
  else if 0.7 ≤ p then 18 + (p - 0.7) / 0.2 * 3
  else if 0.3 ≤ p then 14 + (p - 0.3) / 0.4 * 3
  else if 0.1 ≤ p then 10 + (p - 0.1) / 0.2 * 3
  else max 0 (9 * p / 0.1)

/-- `_score_beats_benchmark_relative`, lines 299-309. -/
def benchBand (p : ℚ) : ℚ :=
  if 0.9 ≤ p then 9 + (p - 0.9) / 0.1 * 1
  else if 0.7 ≤ p then 7 + (p - 0.7) / 0.2 * 1
  else if 0.3 ≤ p then 5 + (p - 0.3) / 0.4 * 1
  else if 0.1 ≤ p then 2 + (p - 0.1) / 0.2 * 2
  else max 0 (p / 0.1)

/-- `_score_stability_relative`, lines 527-537. -/
def stabBand (p : ℚ) : ℚ :=
  if 0.9 ≤ p then 12 + (p - 0.9) / 0.1 * 3
  else if 0.7 ≤ p then 10 + (p - 0.7) / 0.2 * 1
  else if 0.3 ≤ p then 8 + (p - 0.3) / 0.4 * 1
  else if 0.1 ≤ p then 5 + (p - 0.1) / 0.2 * 2
  else max 0 (4 * p / 0.1)

/-! ### Comparison pools and percentiles -/

/-- Generic inclusive percentile: fraction of `pool` satisfying `pred`
(`sum(1 for v in pool if pred v) / len(pool)`). -/
def pct (pred : ℚ → Bool) (pool : List ℚ) : ℚ :=
  (pool.countP pred : ℚ) / (pool.length : ℚ)

/-- `fees = [f.total_annual_fee for f in all_funds if f.total_annual_fee is not None]`. -/
def feePool (all_funds : List FundData) : List ℚ :=
  all_funds.filterMap (fun f => f.total_annual_fee)

/-- `sum(1 for f in fees if f >= fund.total_annual_fee) / len(fees)`. -/
def feePercentile (x : ℚ) (all_funds : List FundData) : ℚ :=
  pct (fun f => x ≤ f) (feePool all_funds)

/-- `_score_fees_relative` (lines 341-371). -/
def scoreFeesRelative (fund : FundData) (all_funds : List FundData) : ℚ :=
  match fund.total_annual_fee with
  | none => 8
  | some x => if feePool all_funds = [] then 8 else feeBand (feePercentile x all_funds)

/-- `scales = [f.scale for f in all_funds if f.scale is not None]`; `scale`
is a required field, so the guard keeps every fund. -/
def scalePool (all_funds : List FundData) : List ℚ :=
  all_funds.map (fun f => f.scale)

/-- `deviations = [abs(s - ideal_scale) for s in scales]` with `ideal_scale = 26.0`. -/
def scaleDeviations (all_funds : List FundData) : List ℚ :=
  (scalePool all_funds).map (fun s => |s - 26|)

/-- `sum(1 for d in deviations if d >= fund_deviation) / len(deviations)`. -/
def scalePercentile (x : ℚ) (all_funds : List FundData) : ℚ :=
  pct (fun d => x ≤ d) (scaleDeviations all_funds)

/-- `_score_scale_relative` (lines 374-406). -/
def scoreScaleRelative (fund : FundData) (all_funds : List FundData) : ℚ :=
  if scalePool all_funds = [] then 8
  else scaleBand (scalePercentile (|fund.scale - 26|) all_funds)

/-- `returns = [f.yearly_return for f in all_funds if f.yearly_return is not None]`. -/
def ytdPool (all_funds : List FundData) : List ℚ :=
  all_funds.filterMap (fun f => f.yearly_return)

/-- `sum(1 for r in returns if r <= fund.yearly_return) / len(returns)`. -/
def ytdPercentile (x : ℚ) (all_funds : List FundData) : ℚ :=
  pct (fun r => r ≤ x) (ytdPool all_funds)

/-- `_score_short_term_performance_relative` (lines 409-439). -/
def scoreShortTermRelative (fund : FundData) (all_funds : List FundData) : ℚ :=
  match fund.yearly_return with
  | none => 10
  | some x => if ytdPool all_funds = [] then 10 else shortBand (ytdPercentile x all_funds)

/-- Annualized five-year pool: only funds with `return_5year` contribute,
each mapped through the annualization `ann` (abstracting
`((1 + r/100) ** (1/5) - 1) * 100`). -/
def longPool (ann : ℚ → ℚ) (all_funds : List FundData) : List ℚ :=
  (all_funds.filterMap (fun f => f.return_5year)).map ann

/-- `sum(1 for r in annualized_returns if r <= fund_return_pct) / len(...)`. -/
def longPercentile (ann : ℚ → ℚ) (x : ℚ) (all_funds : List FundData) : ℚ :=
  pct (fun r => r ≤ x) (longPool ann all_funds)

/-- `_score_long_term_performance_relative` (lines 442-487): empty pool or
missing own five-year return yields the neutral 12.0; `return_3year` is
never read. -/
def scoreLongTermRelative (ann : ℚ → ℚ) (fund : FundData) (all_funds : List FundData) : ℚ :=
  if longPool ann all_funds = [] then 12
  else
    match fund.return_5year with
    | none => 12
    | some r5 => longBand (longPercentile ann (ann r5) all_funds)

/-- `excess_returns = [f.beats_benchmark_amount for f in all_funds if ... is not None]`. -/
def benchPool (all_funds : List FundData) : List ℚ :=
  all_funds.filterMap (fun f => f.beats_benchmark_amount)

/-- `sum(1 for r in excess_returns if r <= fund.beats_benchmark_amount) / len(...)`. -/
def benchPercentile (x : ℚ) (all_funds : List FundData) : ℚ :=
  pct (fun r => r ≤ x) (benchPool all_funds)

/-- `_score_beats_benchmark_relative` (lines 276-309). -/
def scoreBeatsBenchmarkRelative (fund : FundData) (all_funds : List FundData) : ℚ :=
  match fund.beats_benchmark_amount with
  | none => 5
  | some x => if benchPool all_funds = [] then 5 else benchBand (benchPercentile x all_funds)

/-! ### Date parsing and the stability dimension

`_score_stability_relative` parses `establish_date` with
`datetime.strptime(s, "%Y-%m-%d")` and measures the fund's age as
`(datetime.now() - date_obj).days / 365.25`.  `strptime` demands exactly
four year digits, a 1-2 digit month in 1..12, a 1-2 digit day valid for
that month, separated by `-` with nothing left over; failures raise and
are swallowed by the surrounding `try/except`. -/

/-- Gregorian leap-year test. -/
def isLeapYear (y : ℕ) : Bool :=
  y % 4 = 0 && (y % 100 ≠ 0 || y % 400 = 0)

/-- Days in month `m` of year `y`. -/
def daysInMonth (y m : ℕ) : ℕ :=
  if m = 2 then (if isLeapYear y then 29 else 28)
  else if m = 4 ∨ m = 6 ∨ m = 9 ∨ m = 11 then 30
  else 31

/-- Day number of a civil date, counted from 1970-01-01 (Hinnant's
`days_from_civil`, restricted to years 1..9999). -/
def daysFromCivil (y m d : ℕ) : ℤ :=
  let y' := if m ≤ 2 then y - 1 else y
  let era := y' / 400
  let yoe := y' % 400
  let mp := if 2 < m then m - 3 else m + 9
  let doy := (153 * mp + 2) / 5 + d - 1
  let doe := yoe * 365 + yoe / 4 - yoe / 100 + doy
  ((era * 146097 + doe : ℕ) : ℤ) - 719468

/-- Split a character list on `'-'` (the separators of the `%Y-%m-%d`
format); mirrors `str.split("-")` on the date string. -/
def splitDash : List Char → List (List Char)
  | [] => [[]]
  | c :: cs =>
    let r := splitDash cs
    if c = '-' then [] :: r
    else
      match r with
      | a :: rest => (c :: a) :: rest
      | [] => [[c]]

/-- Numeric value of a nonempty all-digit character group; `none` when the
group is empty or contains a non-digit. -/
def digitsToNat : List Char → Option ℕ
  | [] => none
  | cs =>
    cs.foldl (fun acc c =>
      match acc with
      | none => none
      | some n => if c.isDigit then some (n * 10 + (c.toNat - 48)) else none) (some 0)

/-- `datetime.strptime(s, "%Y-%m-%d")`, returning the parsed date as a day
number, or `none` when `strptime` would raise `ValueError` (CPython's
`%Y` is exactly four digits, `%m`/`%d` one or two digits, the month in
1..12, the day valid for that month, and no characters left over). -/
def parseDate (s : String) : Option ℤ :=
  match splitDash s.data with
  | [ys, ms, ds] =>
    match digitsToNat ys, digitsToNat ms, digitsToNat ds with
    | some y, some m, some d =>
      if ys.length = 4 ∧ 1 ≤ y ∧ ms.length ≤ 2 ∧ 1 ≤ m ∧ m ≤ 12 ∧
          ds.length ≤ 2 ∧ 1 ≤ d ∧ d ≤ daysInMonth y m then
        some (daysFromCivil y m d)
      else none
    | _, _, _ => none
  | _ => none

/-- Python truthiness of `fund.establish_date` (`if f.establish_date:`):
`None` and the empty string are falsy. -/
def truthyDate (od : Option String) : Option String :=
  match od with
  | none => none
  | some s => if s = "" then none else some s

/-- `(now - date_obj).days / 365.25`: age in years at clock value `t`
(days since epoch) of a fund established on day `d`; `.days` truncates
the timedelta toward minus infinity to whole days. -/
def ageFrom (t : ℚ) (d : ℤ) : ℚ :=
  ((⌊t - (d : ℚ)⌋ : ℤ) : ℚ) / (365.25 : ℚ)

/-- The `ages` pool loop of `_score_stability_relative` (lines 502-511):
funds with a falsy or unparseable `establish_date` are skipped;
`datetime.now()` is invoked once per successfully parsed date, so the
clock index `k` advances only on success.  Returns the ages list and the
next clock index. -/
def stabilityAges (clock : ℕ → ℚ) : List FundData → ℕ → List ℚ × ℕ
  | [], k => ([], k)
  | f :: fs, k =>
    match truthyDate f.establish_date with
    | none => stabilityAges clock fs k
    | some s =>
      match parseDate s with
      | none => stabilityAges clock fs k
      | some d =>
        let rest := stabilityAges clock fs (k + 1)
        (ageFrom (clock k) d :: rest.1, rest.2)

/-- `_score_stability_relative` (lines 490-539).  `clock k` is the value
returned by the k-th `datetime.now()` call of this invocation. -/
def scoreStabilityRelative (clock : ℕ → ℚ) (fund : FundData) (all_funds : List FundData) : ℚ :=
  let r := stabilityAges clock all_funds 0
  if r.1 = [] then 8
  else
    match truthyDate fund.establish_date with
    | none => 8
    | some s =>
      match parseDate s with
      | none => 8
      | some d =>
        stabBand (pct (fun a => a ≤ ageFrom (clock r.2) d) r.1)

/-- `score_fund` (lines 75-132): the six relative factor scores and their
running sum.  `allFunds = none` models the Python default
`all_funds = None`, replaced by `[fund]`. -/
def scoreFund (ann : ℚ → ℚ) (clock : ℕ → ℚ) (fund : FundData)
    (allFunds : Option (List FundData)) : ℚ × ScoreBreakdown :=
  let all_funds := allFunds.getD [fund]
  let fee_score := scoreFeesRelative fund all_funds
  let scale_score := scoreScaleRelative fund all_funds
  let short_term_score := scoreShortTermRelative fund all_funds
  let long_term_score := scoreLongTermRelative ann fund all_funds
  let benchmark_score := scoreBeatsBenchmarkRelative fund all_funds
  let stability_score := scoreStabilityRelative clock fund all_funds
  (fee_score + scale_score + short_term_score + long_term_score
      + benchmark_score + stability_score,
   ⟨fee_score, scale_score, short_term_score, long_term_score,
      benchmark_score, stability_score⟩)

/-! ### Provider payloads and normalization (`morningstar_client.py`)

The raw JSON dicts are modelled as structures of `Option` fields: a
missing key (at any level of the `get(..., {})` chains) is `none`. -/

/-- `common-data` payload fields read by `get_fund_data`. -/
structure CommonData where
  nameField : Option String
  fundName : Option String
  inceptionDate : Option String
  fundSize : Option ℚ
deriving DecidableEq, Repr

/-- `performance` payload fields read by `get_fund_data`
(`dayEnd.returns.YTD/Y3/Y5` and `dayEnd.benchmarkReturns.YTD`,
plus `benchmarkName`). -/
structure PerformanceData where
  benchmarkName : Option String
  ytd : Option ℚ
  y3 : Option ℚ
  y5 : Option ℚ
  benchYtd : Option ℚ
deriving DecidableEq, Repr

/-- `fees["fees"]` object fields read by `_extract_fees_data`. -/
structure FeesObj where
  managementFee : Option ℚ
  custodianFee : Option ℚ
  distributionFee : Option ℚ
  tradeCost : Option ℚ
  otherCost : Option ℚ
deriving DecidableEq, Repr

/-- `fees` payload: `fees_data.get("fees")`. -/
structure FeesData where
  fees : Option FeesObj
deriving DecidableEq, Repr

/-- The dict returned by `_extract_fees_data`. -/
structure FeesInfo where
  management_fee : ℚ
  custody_fee : ℚ
  subscription_fee : ℚ
  redemption_fee : ℚ
  sales_service_fee : ℚ
  transaction_cost : ℚ
  other_fees : ℚ
  total_annual_fee : ℚ
deriving DecidableEq, Repr

/-- Python `x or d` on an optional number: `None` and `0` are falsy. -/
def pyOr (x : Option ℚ) (d : ℚ) : ℚ :=
  match x with
  | none => d
  | some v => if v = 0 then d else v

/-- Python `x or d` on an optional string: `None` and `""` are falsy. -/
def pyOrS (x : Option String) (d : String) : String :=
  match x with
  | none => d
  | some s => if s = "" then d else s

/-- Python `round` ties-to-even on an exact rational. -/
def roundHalfEven (y : ℚ) : ℤ :=
  let f := ⌊y⌋
  let r := y - (f : ℚ)
  if r < 1/2 then f
  else if 1/2 < r then f + 1
  else if f % 2 = 0 then f else f + 1

/-- `round(x, 2)`. -/
def round2 (x : ℚ) : ℚ :=
  ((roundHalfEven (x * 100) : ℤ) : ℚ) / 100

/-- The `default_fees` dict of `_extract_fees_data` (lines 258-267). -/
def defaultFees : FeesInfo :=
  { management_fee := 0.0015
    custody_fee := 0.0005
    subscription_fee := 0
    redemption_fee := 0
    sales_service_fee := 0
    transaction_cost := 0
    other_fees := 0
    total_annual_fee := 0.002 }

/-- `_extract_fees_data` (lines 238-313): provider percentages are divided
by 100 into fractional form; the total is the sum of the five annual
components. -/
def extractFeesData (feesData : Option FeesData) : FeesInfo :=
  match feesData with
  | none => defaultFees
  | some fd =>
    match fd.fees with
    | none => defaultFees
    | some fees =>
      let management_fee := pyOr fees.managementFee 0.15 / 100
      let custody_fee := pyOr fees.custodianFee 0.05 / 100
      let sales_service_fee := pyOr fees.distributionFee 0 / 100
      let transaction_cost := pyOr fees.tradeCost 0 / 100
      let other_fees := pyOr fees.otherCost 0 / 100
      { management_fee := management_fee
        custody_fee := custody_fee
        subscription_fee := 0
        redemption_fee := 0
        sales_service_fee := sales_service_fee
        transaction_cost := transaction_cost
        other_fees := other_fees
        total_annual_fee := management_fee + custody_fee + sales_service_fee
          + transaction_cost + other_fees }

/-- The exchange-traded prefix test of `get_fund_data` (lines 149-154). -/
def fundTypeOf (code : String) : String :=
  if code.startsWith "51" || code.startsWith "588" || code.startsWith "159"
      || code.startsWith "16" || code.startsWith "15" then "场内" else "场外"

/-- `get_fund_data` (lines 111-236) after the three `_fetch_api` results
are in hand: builds the `FundData` object, or `None` when the mandatory
`common-data` payload is absent.  `names` models `self.fund_names.get`. -/
def getFundData (names : String → Option String) (code : String)
    (common : Option CommonData) (perf : Option PerformanceData)
    (feesD : Option FeesData) : Option FundData :=
  match common with
  | none => none
  | some cd =>
    let name := pyOrS (names code) (pyOrS cd.nameField (pyOrS cd.fundName ("基金" ++ code)))
    let fund_type := fundTypeOf code
    let establish_date := cd.inceptionDate.getD ""
    let fund_size_raw := cd.fundSize.getD 0
    let scale := if fund_size_raw = 0 then 0 else round2 (fund_size_raw / 100000000)
    let benchmark :=
      match perf with
      | some p => p.benchmarkName.getD ""
      | none => ""
    let fees_info := extractFeesData feesD
    let pr :
        Option ℚ × Option ℚ × Option ℚ × Option Bool × Option ℚ :=
      match perf with
      | none => (none, none, none, none, none)
      | some p =>
        let yearly_return := p.ytd
        let return_3year := p.y3
        let return_5year := p.y5
        let benchmark_return := p.benchYtd
        let beats_benchmark : Option Bool :=
          match yearly_return, benchmark_return with
          | some a, some b => some (decide (b < a))
          | _, _ => none
        let beats_benchmark_amount : Option ℚ :=
          match yearly_return, benchmark_return with
          | some a, some b => some (a - b)
          | _, _ => none
        (yearly_return.map round2, return_3year.map round2, return_5year.map round2,
         beats_benchmark, beats_benchmark_amount.map round2)
    some
      { code := code
        name := name
        management_fee := fees_info.management_fee
        custody_fee := fees_info.custody_fee
        subscription_fee := some fees_info.subscription_fee
        redemption_fee := some fees_info.redemption_fee
        sales_service_fee := some fees_info.sales_service_fee
        transaction_cost := some fees_info.transaction_cost
        other_fees := some fees_info.other_fees
        total_annual_fee := some fees_info.total_annual_fee
        scale := scale
        yearly_return := pr.1
        return_3year := pr.2.1
        return_5year := pr.2.2.1
        establish_date := some establish_date
        benchmark := some benchmark
        beats_benchmark := pr.2.2.2.1
        beats_benchmark_amount := pr.2.2.2.2
        fund_type := some fund_type }

/-! ### Transport and batch fetch -/

/-- Outcome of one HTTP request inside `_fetch_api`: a JSON payload with
its `_meta.response_status`, an HTTP error status, or any other raised
exception. -/
inductive ApiOutcome (α : Type) where
  | payload (meta : String) (data : Option α)
  | httpErr (status : ℕ)
  | failed
deriving DecidableEq

/-- `_fetch_api` (lines 66-109): only a payload whose status is `"200011"`
yields data; 404 (fund absent), 429, other HTTP errors and raised
exceptions all produce `None`. -/
def fetchApi {α : Type} (r : ApiOutcome α) : Option α :=
  match r with
  | .payload meta d => if meta = "200011" then d else none
  | .httpErr _ => none
  | .failed => none

/-- The provider's responses for the three sub-resources of one run. -/
structure Provider where
  common : String → ApiOutcome CommonData
  performance : String → ApiOutcome PerformanceData
  feesResp : String → ApiOutcome FeesData

/-- `get_fund_data` composed with `_fetch_api` for the three endpoints. -/
def clientGetFundData (names : String → Option String) (prov : Provider)
    (code : String) : Option FundData :=
  getFundData names code (fetchApi (prov.common code))
    (fetchApi (prov.performance code)) (fetchApi (prov.feesResp code))

/-- Result of one `get_fund_data` task inside `asyncio.gather(...,
return_exceptions=True)`: a fund, `None`, or a raised exception. -/
inductive FetchOutcome where
  | fund (f : FundData)
  | nofund
  | raised
deriving DecidableEq

/-- `clientGetFundData` as seen by the batch loop (it never raises). -/
def clientFetch (names : String → Option String) (prov : Provider)
    (code : String) : FetchOutcome :=
  match clientGetFundData names prov code with
  | some f => .fund f
  | none => .nofund

/-- The result-collection loop body of `batch_get_fund_data` (lines
351-356) on one chunk: exceptions go to `failed` (as bare codes),
non-`None` results go to `funds`, `None` results go nowhere. -/
def batchStep (doFetch : String → FetchOutcome) (batch : List String) :
    List FundData × List String :=
  (batch.filterMap (fun c => match doFetch c with | .fund f => some f | _ => none),
   batch.filter (fun c => doFetch c = .raised))

/-- `batch_get_fund_data` (lines 315-366): chunks the input codes into
slices of `bs = self.max_concurrent` and concatenates each chunk's
successes and exception codes, in input order.  No deduplication is
performed and `None` results are dropped silently.  The Python method
returns only the first component; the second models the local `failed`
list. -/
def batchGetFundData (doFetch : String → FetchOutcome) (bs : ℕ) (hbs : 0 < bs) :
    List String → List FundData × List String
  | [] => ([], [])
  | c :: cs =>
    let b := batchStep doFetch ((c :: cs).take bs)
    let rest := batchGetFundData doFetch bs hbs ((c :: cs).drop bs)
    (b.1 ++ rest.1, b.2 ++ rest.2)
termination_by l => l.length
decreasing_by simp only [List.length_drop, List.length_cons]; omega

/-! ### Scoring loop and ranker (`main.py`, `analyze_sector`) -/

/-- One entry of the `scored_funds` list of dicts. -/
structure ScoredFund where
  fund : FundData
  score : ℚ
  breakdown : ScoreBreakdown
deriving DecidableEq

/-- The scoring loop (lines 241-248): `score_fund(fund, all_funds=funds)`
for each fund, in input order. -/
def scoredList (ann : ℚ → ℚ) (clock : ℕ → ℚ) (funds : List FundData) :
    List ScoredFund :=
  funds.map (fun f =>
    let r := scoreFund ann clock f (some funds)
    ⟨f, r.1, r.2⟩)

/-- The relation under which Python's stable
`sort(key=lambda x: x["score"], reverse=True)` leaves `a` before `b`. -/
def scoreGE (a b : ScoredFund) : Prop := b.score ≤ a.score

instance : DecidableRel scoreGE := fun a b => inferInstanceAs (Decidable (b.score ≤ a.score))

instance : IsTotal ScoredFund scoreGE := ⟨fun a b => le_total b.score a.score⟩

instance : IsTrans ScoredFund scoreGE := ⟨fun _ _ _ h1 h2 => le_trans h2 h1⟩

/-- `scored_funds.sort(key=lambda x: x["score"], reverse=True)` (line 251):
a stable descending sort on the composite score — extensionally any
stable sort, here insertion sort. -/
def sortScoredDesc (l : List ScoredFund) : List ScoredFund :=
  l.insertionSort scoreGE

/-- Score-then-sort as performed by `analyze_sector` (lines 241-251). -/
def rankFunds (ann : ℚ → ℚ) (clock : ℕ → ℚ) (funds : List FundData) :
    List ScoredFund :=
  sortScoredDesc (scoredList ann clock funds)

/-! ### Concrete data used in witnesses and counterexamples -/

/-- A minimal fund record (only the mandatory fields populated); concrete
variants are built with structure-update syntax. -/
def baseFund : FundData :=
  { code := "X"
    name := "x"
    management_fee := 0.0015
    custody_fee := 0.0005
    subscription_fee := none
    redemption_fee := none
    sales_service_fee := none
    transaction_cost := none
    other_fees := none
    total_annual_fee := none
    scale := 10
    yearly_return := none
    return_3year := none
    return_5year := none
    establish_date := none
    benchmark := none
    beats_benchmark := none
    beats_benchmark_amount := none
    fund_type := none }

/-- Provider used in concrete batch runs: code `"B"` is unknown to the
provider (HTTP 404 on `common-data`); every other code serves an empty
common payload while its performance and fees sub-requests fail. -/
def sampleProvider : Provider :=
  { common := fun code =>
      if code = "B" then ApiOutcome.httpErr 404
      else ApiOutcome.payload "200011" (some (CommonData.mk none none none none))
    performance := fun _ => ApiOutcome.failed
    feesResp := fun _ => ApiOutcome.failed }

/-- The entity `sampleProvider` yields for a successful code: default fee
profile, zero scale, empty inception date and benchmark, no returns. -/
def sampleFetched (code fullName : String) : FundData :=
  { baseFund with
      code := code, name := fullName,
      subscription_fee := some 0, redemption_fee := some 0,
      sales_service_fee := some 0, transaction_cost := some 0,
      other_fees := some 0, total_annual_fee := some 0.002,
      scale := 0, establish_date := some "", benchmark := some "",
      fund_type := some "场外" }

/-- A fund strictly better than `worseFund` on every scoring dimension:
lower total fee, higher YTD return, scale closer to 26, higher five-year
return, higher excess return, earlier inception. -/
def betterFund : FundData :=
  { baseFund with
      code := "A", total_annual_fee := some 0.01, yearly_return := some 5,
      scale := 25, return_5year := some 30, beats_benchmark_amount := some 2,
      establish_date := some "2015-01-01" }

/-- The dominated counterpart of `betterFund`. -/
def worseFund : FundData :=
  { baseFund with
      code := "B", total_annual_fee := some 0.02, yearly_return := some 1,
      scale := 10, return_5year := some 10, beats_benchmark_amount := some 0,
      establish_date := some "2020-01-01" }

/-! ### Shared lemmas: percentiles and band maps -/

theorem pct_nonneg (pred : ℚ → Bool) (pool : List ℚ) : 0 ≤ pct pred pool := by
  unfold pct
  positivity

theorem pct_le_one (pred : ℚ → Bool) (pool : List ℚ) (h : pool ≠ []) :
    pct pred pool ≤ 1 := by
  unfold pct
  have hlen : 0 < (pool.length : ℚ) := by
    have := List.length_pos.mpr h
    exact_mod_cast this
  rw [div_le_one hlen]
  exact_mod_cast List.countP_le_length pred

theorem pct_mono (p q : ℚ → Bool) (pool : List ℚ) (h : ∀ a ∈ pool, p a → q a) :
    pct p pool ≤ pct q pool := by
  unfold pct
  rcases eq_or_ne pool [] with rfl | hne
  · simp
  · have hlen : 0 < (pool.length : ℚ) := by
      have := List.length_pos.mpr hne
      exact_mod_cast this
    rw [div_le_div_iff_of_pos_right hlen]
    exact_mod_cast List.countP_mono_left h

theorem max0_le {a c : ℚ} (h0 : 0 ≤ c) (h : a ≤ c) : max 0 a ≤ c :=
  max_le h0 h

theorem max0_le_max0 {a b : ℚ} (h : a ≤ b) : max 0 a ≤ max 0 b :=
  max_le (le_max_left 0 b) (le_trans h (le_max_right 0 b))

theorem feeBand_bounds {p : ℚ} (h0 : 0 ≤ p) (h1 : p ≤ 1) :
    0 ≤ feeBand p ∧ feeBand p ≤ 15 := by
  unfold feeBand
  split_ifs <;> constructor <;>
    first
      | (ring_nf; linarith)
      | exact le_max_left _ _
      | (apply max0_le <;> (ring_nf; linarith))

theorem scaleBand_bounds {p : ℚ} (h0 : 0 ≤ p) (h1 : p ≤ 1) :
    0 ≤ scaleBand p ∧ scaleBand p ≤ 15 := by
  unfold scaleBand
  split_ifs <;> constructor <;> (ring_nf; linarith)

theorem shortBand_bounds {p : ℚ} (h0 : 0 ≤ p) (h1 : p ≤ 1) :
    0 ≤ shortBand p ∧ shortBand p ≤ 20 := by
  unfold shortBand
  split_ifs <;> constructor <;>
    first
      | (ring_nf; linarith)
      | exact le_max_left _ _
      | (apply max0_le <;> (ring_nf; linarith))

theorem longBand_bounds {p : ℚ} (h0 : 0 ≤ p) (h1 : p ≤ 1) :
    0 ≤ longBand p ∧ longBand p ≤ 25 := by
  unfold longBand
  split_ifs <;> constructor <;>
    first
      | (ring_nf; linarith)
      | exact le_max_left _ _
      | (apply max0_le <;> (ring_nf; linarith))

theorem benchBand_bounds {p : ℚ} (h0 : 0 ≤ p) (h1 : p ≤ 1) :
    0 ≤ benchBand p ∧ benchBand p ≤ 10 := by
  unfold benchBand
  split_ifs <;> constructor <;>
    first
      | (ring_nf; linarith)
      | exact le_max_left _ _
      | (apply max0_le <;> (ring_nf; linarith))

theorem stabBand_bounds {p : ℚ} (h0 : 0 ≤ p) (h1 : p ≤ 1) :
    0 ≤ stabBand p ∧ stabBand p ≤ 15 := by
  unfold stabBand
  split_ifs <;> constructor <;>
    first
      | (ring_nf; linarith)
      | exact le_max_left _ _
      | (apply max0_le <;> (ring_nf; linarith))

theorem feeBand_mono {p q : ℚ} (h0 : 0 ≤ p) (hpq : p ≤ q) (h1 : q ≤ 1) :
    feeBand p ≤ feeBand q := by
  unfold feeBand
  split_ifs <;>
    first
      | (ring_nf; linarith)
      | (apply max0_le <;> (ring_nf; linarith))
      | (apply max0_le_max0; ring_nf; linarith)

theorem shortBand_mono {p q : ℚ} (h0 : 0 ≤ p) (hpq : p ≤ q) (h1 : q ≤ 1) :
    shortBand p ≤ shortBand q := by
  unfold shortBand
  split_ifs <;>
    first
      | (ring_nf; linarith)
      | (apply max0_le <;> (ring_nf; linarith))
      | (apply max0_le_max0; ring_nf; linarith)

theorem scaleBand_mono {p q : ℚ} (h0 : 0 ≤ p) (hpq : p ≤ q) (h1 : q ≤ 1) :
    scaleBand p ≤ scaleBand q := by
  unfold scaleBand
  split_ifs <;> (ring_nf; linarith)

theorem longBand_mono {p q : ℚ} (h0 : 0 ≤ p) (hpq : p ≤ q) (h1 : q ≤ 1) :
    longBand p ≤ longBand q := by
  unfold longBand
  split_ifs <;>
    first
      | (ring_nf; linarith)
      | (apply max0_le <;> (ring_nf; linarith))
      | (apply max0_le_max0; ring_nf; linarith)

theorem benchBand_mono {p q : ℚ} (h0 : 0 ≤ p) (hpq : p ≤ q) (h1 : q ≤ 1) :
    benchBand p ≤ benchBand q := by
  unfold benchBand
  split_ifs <;>
    first
      | (ring_nf; linarith)
      | (apply max0_le <;> (ring_nf; linarith))
      | (apply max0_le_max0; ring_nf; linarith)

theorem stabBand_mono {p q : ℚ} (h0 : 0 ≤ p) (hpq : p ≤ q) (h1 : q ≤ 1) :
    stabBand p ≤ stabBand q := by
  unfold stabBand
  split_ifs <;>
    first
      | (ring_nf; linarith)
      | (apply max0_le <;> (ring_nf; linarith))
      | (apply max0_le_max0; ring_nf; linarith)

theorem ageFrom_antitone {t : ℚ} {d1 d2 : ℤ} (h : d1 ≤ d2) :
    ageFrom t d2 ≤ ageFrom t d1 := by
  unfold ageFrom
  rw [div_le_div_iff_of_pos_right (by norm_num : (0 : ℚ) < 365.25)]
  have : t - (d2 : ℚ) ≤ t - (d1 : ℚ) := by
    have : (d1 : ℚ) ≤ (d2 : ℚ) := by exact_mod_cast h
    linarith
  exact_mod_cast Int.floor_le_floor this

/-! ### Per-dimension score bounds -/

theorem scoreFeesRelative_bounds (fund : FundData) (all_funds : List FundData) :
    0 ≤ scoreFeesRelative fund all_funds ∧ scoreFeesRelative fund all_funds ≤ 15 := by
  unfold scoreFeesRelative
  rcases fund.total_annual_fee with _ | x
  · norm_num
  · dsimp only
    split_ifs with h
    · norm_num
    · exact feeBand_bounds (pct_nonneg _ _) (pct_le_one _ _ h)

theorem scoreScaleRelative_bounds (fund : FundData) (all_funds : List FundData) :
    0 ≤ scoreScaleRelative fund all_funds ∧ scoreScaleRelative fund all_funds ≤ 15 := by
  unfold scoreScaleRelative
  split_ifs with h
  · norm_num
  · have hd : scaleDeviations all_funds ≠ [] := by
      simp only [scaleDeviations, ne_eq, List.map_eq_nil_iff]
      exact h
    exact scaleBand_bounds (pct_nonneg _ _) (pct_le_one _ _ hd)

theorem scoreShortTermRelative_bounds (fund : FundData) (all_funds : List FundData) :
    0 ≤ scoreShortTermRelative fund all_funds ∧ scoreShortTermRelative fund all_funds ≤ 20 := by
  unfold scoreShortTermRelative
  rcases fund.yearly_return with _ | x
  · norm_num
  · dsimp only
    split_ifs with h
    · norm_num
    · exact shortBand_bounds (pct_nonneg _ _) (pct_le_one _ _ h)

theorem scoreLongTermRelative_bounds (ann : ℚ → ℚ) (fund : FundData)
    (all_funds : List FundData) :
    0 ≤ scoreLongTermRelative ann fund all_funds ∧
      scoreLongTermRelative ann fund all_funds ≤ 25 := by
  unfold scoreLongTermRelative
  split_ifs with h
  · norm_num
  · rcases fund.return_5year with _ | r5
    · norm_num
    · exact longBand_bounds (pct_nonneg _ _) (pct_le_one _ _ h)

theorem scoreBeatsBenchmarkRelative_bounds (fund : FundData) (all_funds : List FundData) :
    0 ≤ scoreBeatsBenchmarkRelative fund all_funds ∧
      scoreBeatsBenchmarkRelative fund all_funds ≤ 10 := by
  unfold scoreBeatsBenchmarkRelative
  rcases fund.beats_benchmark_amount with _ | x
  · norm_num
  · dsimp only
    split_ifs with h
    · norm_num
    · exact benchBand_bounds (pct_nonneg _ _) (pct_le_one _ _ h)

theorem scoreStabilityRelative_bounds (clock : ℕ → ℚ) (fund : FundData)
    (all_funds : List FundData) :
    0 ≤ scoreStabilityRelative clock fund all_funds ∧
      scoreStabilityRelative clock fund all_funds ≤ 15 := by
  unfold scoreStabilityRelative
  dsimp only
  split_ifs with h
  · norm_num
  · rcases truthyDate fund.establish_date with _ | s
    · norm_num
    · dsimp only
      rcases parseDate s with _ | d
      · norm_num
      · exact stabBand_bounds (pct_nonneg _ _) (pct_le_one _ _ h)

/-- C1: for every fund scored by `score_fund` against a cohort containing
it, the total score lies in [0, 100], equals the exact sum of the six
factor scores of the breakdown, and each factor score lies within its
documented cap (fee 15, scale 15, short-term 20, long-term 25,
excess-return 10, stability 15). -/
theorem score_fund_composite_bounds (ann : ℚ → ℚ) (clock : ℕ → ℚ) (fund : FundData)
    (all_funds : List FundData) (hmem : fund ∈ all_funds) :
    (0 ≤ (scoreFund ann clock fund (some all_funds)).1 ∧
        (scoreFund ann clock fund (some all_funds)).1 ≤ 100) ∧
    (scoreFund ann clock fund (some all_funds)).1 =
        (scoreFund ann clock fund (some all_funds)).2.fee
        + (scoreFund ann clock fund (some all_funds)).2.scaleFit
        + (scoreFund ann clock fund (some all_funds)).2.shortTerm
        + (scoreFund ann clock fund (some all_funds)).2.longTerm
        + (scoreFund ann clock fund (some all_funds)).2.bench
        + (scoreFund ann clock fund (some all_funds)).2.stability ∧
    (0 ≤ (scoreFund ann clock fund (some all_funds)).2.fee ∧
        (scoreFund ann clock fund (some all_funds)).2.fee ≤ 15) ∧
    (0 ≤ (scoreFund ann clock fund (some all_funds)).2.scaleFit ∧
        (scoreFund ann clock fund (some all_funds)).2.scaleFit ≤ 15) ∧
    (0 ≤ (scoreFund ann clock fund (some all_funds)).2.shortTerm ∧
        (scoreFund ann clock fund (some all_funds)).2.shortTerm ≤ 20) ∧
    (0 ≤ (scoreFund ann clock fund (some all_funds)).2.longTerm ∧
        (scoreFund ann clock fund (some all_funds)).2.longTerm ≤ 25) ∧
    (0 ≤ (scoreFund ann clock fund (some all_funds)).2.bench ∧
        (scoreFund ann clock fund (some all_funds)).2.bench ≤ 10) ∧
    (0 ≤ (scoreFund ann clock fund (some all_funds)).2.stability ∧
        (scoreFund ann clock fund (some all_funds)).2.stability ≤ 15) := by
  have h1 := scoreFeesRelative_bounds fund all_funds
  have h2 := scoreScaleRelative_bounds fund all_funds
  have h3 := scoreShortTermRelative_bounds fund all_funds
  have h4 := scoreLongTermRelative_bounds ann fund all_funds
  have h5 := scoreBeatsBenchmarkRelative_bounds fund all_funds
  have h6 := scoreStabilityRelative_bounds clock fund all_funds
  unfold scoreFund
  simp only [Option.getD_some]
  exact ⟨⟨by linarith [h1.1, h2.1, h3.1, h4.1, h5.1, h6.1],
          by linarith [h1.2, h2.2, h3.2, h4.2, h5.2, h6.2]⟩,
         by trivial, h1, h2, h3, h4, h5, h6⟩

/-- Witness for C1 at a concrete singleton cohort. -/
theorem score_fund_composite_bounds_witness :
    baseFund ∈ [baseFund] ∧
    ((0 ≤ (scoreFund (fun r => r) (fun _ => 0) baseFund (some [baseFund])).1 ∧
        (scoreFund (fun r => r) (fun _ => 0) baseFund (some [baseFund])).1 ≤ 100) ∧
    (scoreFund (fun r => r) (fun _ => 0) baseFund (some [baseFund])).1 =
        (scoreFund (fun r => r) (fun _ => 0) baseFund (some [baseFund])).2.fee
        + (scoreFund (fun r => r) (fun _ => 0) baseFund (some [baseFund])).2.scaleFit
        + (scoreFund (fun r => r) (fun _ => 0) baseFund (some [baseFund])).2.shortTerm
        + (scoreFund (fun r => r) (fun _ => 0) baseFund (some [baseFund])).2.longTerm
        + (scoreFund (fun r => r) (fun _ => 0) baseFund (some [baseFund])).2.bench
        + (scoreFund (fun r => r) (fun _ => 0) baseFund (some [baseFund])).2.stability ∧
    (0 ≤ (scoreFund (fun r => r) (fun _ => 0) baseFund (some [baseFund])).2.fee ∧
        (scoreFund (fun r => r) (fun _ => 0) baseFund (some [baseFund])).2.fee ≤ 15) ∧
    (0 ≤ (scoreFund (fun r => r) (fun _ => 0) baseFund (some [baseFund])).2.scaleFit ∧
        (scoreFund (fun r => r) (fun _ => 0) baseFund (some [baseFund])).2.scaleFit ≤ 15) ∧
    (0 ≤ (scoreFund (fun r => r) (fun _ => 0) baseFund (some [baseFund])).2.shortTerm ∧
        (scoreFund (fun r => r) (fun _ => 0) baseFund (some [baseFund])).2.shortTerm ≤ 20) ∧
    (0 ≤ (scoreFund (fun r => r) (fun _ => 0) baseFund (some [baseFund])).2.longTerm ∧
        (scoreFund (fun r => r) (fun _ => 0) baseFund (some [baseFund])).2.longTerm ≤ 25) ∧
    (0 ≤ (scoreFund (fun r => r) (fun _ => 0) baseFund (some [baseFund])).2.bench ∧
        (scoreFund (fun r => r) (fun _ => 0) baseFund (some [baseFund])).2.bench ≤ 10) ∧
    (0 ≤ (scoreFund (fun r => r) (fun _ => 0) baseFund (some [baseFund])).2.stability ∧
        (scoreFund (fun r => r) (fun _ => 0) baseFund (some [baseFund])).2.stability ≤ 15)) :=
  ⟨List.mem_singleton.mpr rfl,
   score_fund_composite_bounds (fun r => r) (fun _ => 0) baseFund [baseFund]
     (List.mem_singleton.mpr rfl)⟩

/-- C2: for a fixed cohort and any one of the six scoring dimensions,
when fund A's underlying field value is strictly better than fund B's
under that dimension's direction (lower total fee; deviation of scale
from 26 smaller; higher YTD return; higher five-year return, the
annualization map being monotone; higher excess return; earlier parsed
inception date), A's inclusive percentile is at least B's, and
consequently A's factor score for that dimension is at least B's.  Each
conjunct assumes only its own dimension's hypotheses, so a pair of funds
comparable on one dimension alone is covered. -/
theorem factor_score_monotone (all_funds : List FundData) (A B : FundData)
    (ann : ℚ → ℚ) (clock : ℕ → ℚ) :
    (∀ a b : ℚ, A.total_annual_fee = some a → B.total_annual_fee = some b → a < b →
      feePercentile b all_funds ≤ feePercentile a all_funds ∧
      scoreFeesRelative B all_funds ≤ scoreFeesRelative A all_funds) ∧
    (|A.scale - 26| < |B.scale - 26| →
      scalePercentile (|B.scale - 26|) all_funds ≤ scalePercentile (|A.scale - 26|) all_funds ∧
      scoreScaleRelative B all_funds ≤ scoreScaleRelative A all_funds) ∧
    (∀ c d : ℚ, A.yearly_return = some c → B.yearly_return = some d → d < c →
      ytdPercentile d all_funds ≤ ytdPercentile c all_funds ∧
      scoreShortTermRelative B all_funds ≤ scoreShortTermRelative A all_funds) ∧
    (∀ a5 b5 : ℚ, A.return_5year = some a5 → B.return_5year = some b5 → b5 < a5 →
      (∀ x y : ℚ, x ≤ y → ann x ≤ ann y) →
      longPercentile ann (ann b5) all_funds ≤ longPercentile ann (ann a5) all_funds ∧
      scoreLongTermRelative ann B all_funds ≤ scoreLongTermRelative ann A all_funds) ∧
    (∀ ea eb : ℚ, A.beats_benchmark_amount = some ea →
      B.beats_benchmark_amount = some eb → eb < ea →
      benchPercentile eb all_funds ≤ benchPercentile ea all_funds ∧
      scoreBeatsBenchmarkRelative B all_funds ≤ scoreBeatsBenchmarkRelative A all_funds) ∧
    (∀ (sA sB : String) (dA dB : ℤ), A.establish_date = some sA →
      B.establish_date = some sB → sA ≠ "" → sB ≠ "" →
      parseDate sA = some dA → parseDate sB = some dB → dA < dB →
      pct (fun x => x ≤ ageFrom (clock (stabilityAges clock all_funds 0).2) dB)
          (stabilityAges clock all_funds 0).1 ≤
        pct (fun x => x ≤ ageFrom (clock (stabilityAges clock all_funds 0).2) dA)
          (stabilityAges clock all_funds 0).1 ∧
      scoreStabilityRelative clock B all_funds ≤ scoreStabilityRelative clock A all_funds) := by
  refine ⟨?_, ?_, ?_, ?_, ?_, ?_⟩
  · intro a b hfA hfB hfab
    have hfp : feePercentile b all_funds ≤ feePercentile a all_funds :=
      pct_mono _ _ _ (fun v _ hv => by
        simp only [decide_eq_true_eq] at hv ⊢
        linarith)
    refine ⟨hfp, ?_⟩
    unfold scoreFeesRelative
    rw [hfA, hfB]
    dsimp only
    split_ifs with h
    · exact le_refl 8
    · exact feeBand_mono (pct_nonneg _ _) hfp (pct_le_one _ _ h)
  · intro hsc
    have hsp : scalePercentile (|B.scale - 26|) all_funds ≤
        scalePercentile (|A.scale - 26|) all_funds :=
      pct_mono _ _ _ (fun v _ hv => by
        simp only [decide_eq_true_eq] at hv ⊢
        linarith)
    refine ⟨hsp, ?_⟩
    unfold scoreScaleRelative
    split_ifs with h
    · exact le_refl 8
    · have hd : scaleDeviations all_funds ≠ [] := by
        simp only [scaleDeviations, ne_eq, List.map_eq_nil_iff]
        exact h
      exact scaleBand_mono (pct_nonneg _ _) hsp (pct_le_one _ _ hd)
  · intro c d hyA hyB hydc
    have hyp : ytdPercentile d all_funds ≤ ytdPercentile c all_funds :=
      pct_mono _ _ _ (fun v _ hv => by
        simp only [decide_eq_true_eq] at hv ⊢
        linarith)
    refine ⟨hyp, ?_⟩
    unfold scoreShortTermRelative
    rw [hyA, hyB]
    dsimp only
    split_ifs with h
    · exact le_refl 10
    · exact shortBand_mono (pct_nonneg _ _) hyp (pct_le_one _ _ h)
  · intro a5 b5 h5A h5B h5ab hann
    have h5 : ann b5 ≤ ann a5 := hann _ _ (le_of_lt h5ab)
    have hlp : longPercentile ann (ann b5) all_funds ≤
        longPercentile ann (ann a5) all_funds :=
      pct_mono _ _ _ (fun v _ hv => by
        simp only [decide_eq_true_eq] at hv ⊢
        linarith)
    refine ⟨hlp, ?_⟩
    unfold scoreLongTermRelative
    split_ifs with h
    · exact le_refl 12
    · rw [h5A, h5B]
      dsimp only
      exact longBand_mono (pct_nonneg _ _) hlp (pct_le_one _ _ h)
  · intro ea eb heA heB heab
    have hep : benchPercentile eb all_funds ≤ benchPercentile ea all_funds :=
      pct_mono _ _ _ (fun v _ hv => by
        simp only [decide_eq_true_eq] at hv ⊢
        linarith)
    refine ⟨hep, ?_⟩
    unfold scoreBeatsBenchmarkRelative
    rw [heA, heB]
    dsimp only
    split_ifs with h
    · exact le_refl 5
    · exact benchBand_mono (pct_nonneg _ _) hep (pct_le_one _ _ h)
  · intro sA sB dA dB hdA hdB hsAne hsBne hpA hpB hdab
    have hage : ageFrom (clock (stabilityAges clock all_funds 0).2) dB ≤
        ageFrom (clock (stabilityAges clock all_funds 0).2) dA :=
      ageFrom_antitone (le_of_lt hdab)
    have hagep : pct (fun x => x ≤ ageFrom (clock (stabilityAges clock all_funds 0).2) dB)
        (stabilityAges clock all_funds 0).1 ≤
        pct (fun x => x ≤ ageFrom (clock (stabilityAges clock all_funds 0).2) dA)
        (stabilityAges clock all_funds 0).1 :=
      pct_mono _ _ _ (fun v _ hv => by
        simp only [decide_eq_true_eq] at hv ⊢
        linarith)
    have htA : truthyDate A.establish_date = some sA := by simp [truthyDate, hdA, hsAne]
    have htB : truthyDate B.establish_date = some sB := by simp [truthyDate, hdB, hsBne]
    refine ⟨hagep, ?_⟩
    unfold scoreStabilityRelative
    dsimp only
    split_ifs with h
    · exact le_refl 8
    · rw [htA, htB]
      dsimp only
      rw [hpA, hpB]
      exact stabBand_mono (pct_nonneg _ _) hagep (pct_le_one _ _ h)

/-- Witness for C2 on the concrete two-fund cohort
`[betterFund, worseFund]`, with identity annualization and constant
clock. -/
theorem factor_score_monotone_witness :
    (betterFund.total_annual_fee = some 0.01 ∧ worseFund.total_annual_fee = some 0.02 ∧
      (0.01 : ℚ) < 0.02 ∧ |betterFund.scale - 26| < |worseFund.scale - 26| ∧
      betterFund.yearly_return = some 5 ∧ worseFund.yearly_return = some 1 ∧ (1 : ℚ) < 5 ∧
      betterFund.return_5year = some 30 ∧ worseFund.return_5year = some 10 ∧
      (10 : ℚ) < 30 ∧
      betterFund.beats_benchmark_amount = some 2 ∧
      worseFund.beats_benchmark_amount = some 0 ∧ (0 : ℚ) < 2 ∧
      betterFund.establish_date = some "2015-01-01" ∧
      worseFund.establish_date = some "2020-01-01" ∧
      parseDate "2015-01-01" = some 16436 ∧ parseDate "2020-01-01" = some 18262 ∧
      (16436 : ℤ) < 18262) ∧
    ((feePercentile 0.02 [betterFund, worseFund] ≤
        feePercentile 0.01 [betterFund, worseFund] ∧
      scoreFeesRelative worseFund [betterFund, worseFund] ≤
        scoreFeesRelative betterFund [betterFund, worseFund]) ∧
    (scalePercentile (|worseFund.scale - 26|) [betterFund, worseFund] ≤
        scalePercentile (|betterFund.scale - 26|) [betterFund, worseFund] ∧
      scoreScaleRelative worseFund [betterFund, worseFund] ≤
        scoreScaleRelative betterFund [betterFund, worseFund]) ∧
    (ytdPercentile 1 [betterFund, worseFund] ≤ ytdPercentile 5 [betterFund, worseFund] ∧
      scoreShortTermRelative worseFund [betterFund, worseFund] ≤
        scoreShortTermRelative betterFund [betterFund, worseFund]) ∧
    (longPercentile (fun r => r) ((fun r : ℚ => r) 10) [betterFund, worseFund] ≤
        longPercentile (fun r => r) ((fun r : ℚ => r) 30) [betterFund, worseFund] ∧
      scoreLongTermRelative (fun r => r) worseFund [betterFund, worseFund] ≤
        scoreLongTermRelative (fun r => r) betterFund [betterFund, worseFund]) ∧
    (benchPercentile 0 [betterFund, worseFund] ≤
        benchPercentile 2 [betterFund, worseFund] ∧
      scoreBeatsBenchmarkRelative worseFund [betterFund, worseFund] ≤
        scoreBeatsBenchmarkRelative betterFund [betterFund, worseFund]) ∧
    (pct (fun x => x ≤ ageFrom
          ((fun _ : ℕ => (0 : ℚ)) (stabilityAges (fun _ => 0) [betterFund, worseFund] 0).2)
          18262)
        (stabilityAges (fun _ => 0) [betterFund, worseFund] 0).1 ≤
      pct (fun x => x ≤ ageFrom
          ((fun _ : ℕ => (0 : ℚ)) (stabilityAges (fun _ => 0) [betterFund, worseFund] 0).2)
          16436)
        (stabilityAges (fun _ => 0) [betterFund, worseFund] 0).1 ∧
      scoreStabilityRelative (fun _ => 0) worseFund [betterFund, worseFund] ≤
        scoreStabilityRelative (fun _ => 0) betterFund [betterFund, worseFund])) :=
  ⟨⟨rfl, rfl, by norm_num, by norm_num [betterFund, worseFund, baseFund], rfl, rfl,
    by norm_num, rfl, rfl, by norm_num, rfl, rfl, by norm_num, rfl, rfl, by decide,
    by decide, by norm_num⟩,
   (factor_score_monotone [betterFund, worseFund] betterFund worseFund (fun r => r)
     (fun _ => 0)).1 0.01 0.02 rfl rfl (by norm_num),
   (factor_score_monotone [betterFund, worseFund] betterFund worseFund (fun r => r)
     (fun _ => 0)).2.1 (by norm_num [betterFund, worseFund, baseFund]),
   (factor_score_monotone [betterFund, worseFund] betterFund worseFund (fun r => r)
     (fun _ => 0)).2.2.1 5 1 rfl rfl (by norm_num),
   (factor_score_monotone [betterFund, worseFund] betterFund worseFund (fun r => r)
     (fun _ => 0)).2.2.2.1 30 10 rfl rfl (by norm_num) (fun x y h => h),
   (factor_score_monotone [betterFund, worseFund] betterFund worseFund (fun r => r)
     (fun _ => 0)).2.2.2.2.1 2 0 rfl rfl (by norm_num),
   (factor_score_monotone [betterFund, worseFund] betterFund worseFund (fun r => r)
     (fun _ => 0)).2.2.2.2.2 "2015-01-01" "2020-01-01" 16436 18262 rfl rfl
     (by decide) (by decide) (by decide) (by decide) (by norm_num)⟩

/-- C7: a fund lacking a five-year return receives exactly the neutral
12.0 from long-term relative scoring, contributes nothing to the
comparison pool used for other funds, and its three-year return is never
consulted (the score stays 12.0 whatever `return_3year` holds). -/
theorem long_term_only_five_year (ann : ℚ → ℚ) (fund : FundData)
    (all_funds : List FundData) (h : fund.return_5year = none) :
    scoreLongTermRelative ann fund all_funds = 12 ∧
    (∀ g : FundData, scoreLongTermRelative ann g (fund :: all_funds) =
        scoreLongTermRelative ann g all_funds) ∧
    (∀ r3 : Option ℚ,
        scoreLongTermRelative ann { fund with return_3year := r3 } all_funds = 12) := by
  have key : ∀ f' : FundData, f'.return_5year = none →
      scoreLongTermRelative ann f' all_funds = 12 := by
    intro f' hf
    unfold scoreLongTermRelative
    split_ifs with hp
    · rfl
    · rw [hf]
  have hpool : longPool ann (fund :: all_funds) = longPool ann all_funds := by
    simp [longPool, h]
  refine ⟨key fund h, ?_, fun r3 => key _ h⟩
  intro g
  unfold scoreLongTermRelative longPercentile
  rw [hpool]

/-- Witness for C7 on a concrete cohort. -/
theorem long_term_only_five_year_witness :
    baseFund.return_5year = none ∧
    scoreLongTermRelative (fun r => r) baseFund [baseFund] = 12 ∧
    scoreLongTermRelative (fun r => r) baseFund (baseFund :: [baseFund]) =
      scoreLongTermRelative (fun r => r) baseFund [baseFund] ∧
    scoreLongTermRelative (fun r => r) { baseFund with return_3year := some 10 }
      [baseFund] = 12 :=
  ⟨rfl, (long_term_only_five_year (fun r => r) baseFund [baseFund] rfl).1,
   (long_term_only_five_year (fun r => r) baseFund [baseFund] rfl).2.1 baseFund,
   (long_term_only_five_year (fun r => r) baseFund [baseFund] rfl).2.2 (some 10)⟩

/-- C8: when the provider's benchmark YTD return is absent, normalization
leaves both `beats_benchmark` and `beats_benchmark_amount` absent (never
`0`/`False`), and such a fund's excess-return factor score is the
neutral 5.0 in every cohort. -/
theorem excess_return_absent_neutral (names : String → Option String) (code : String)
    (cd : CommonData) (p : PerformanceData) (feesD : Option FeesData) (fd : FundData)
    (hb : p.benchYtd = none)
    (h : getFundData names code (some cd) (some p) feesD = some fd) :
    fd.beats_benchmark = none ∧ fd.beats_benchmark_amount = none ∧
    ∀ cohort : List FundData, scoreBeatsBenchmarkRelative fd cohort = 5 := by
  unfold getFundData at h
  rw [Option.some_inj] at h
  subst h
  rcases hy : p.ytd with _ | y <;>
    simp only [hy, hb] <;>
    refine ⟨by trivial, by trivial, fun cohort => ?_⟩ <;>
    · unfold scoreBeatsBenchmarkRelative
      simp [hy, hb]

/-- Witness for C8 at a concrete payload with YTD present and benchmark
YTD absent. -/
theorem excess_return_absent_neutral_witness :
    (PerformanceData.mk none (some 5) none none none).benchYtd = none ∧
    getFundData (fun _ => none) "X" (some (CommonData.mk none none none none))
      (some (PerformanceData.mk none (some 5) none none none)) none =
      some { baseFund with
              code := "X", name := "基金X", yearly_return := some 5,
              subscription_fee := some 0, redemption_fee := some 0,
              sales_service_fee := some 0, transaction_cost := some 0,
              other_fees := some 0, total_annual_fee := some 0.002,
              scale := 0, establish_date := some "", benchmark := some "",
              fund_type := some "场外" } ∧
    ({ baseFund with
        code := "X", name := "基金X", yearly_return := some 5,
        subscription_fee := some 0, redemption_fee := some 0,
        sales_service_fee := some 0, transaction_cost := some 0,
        other_fees := some 0, total_annual_fee := some 0.002,
        scale := 0, establish_date := some "", benchmark := some "",
        fund_type := some "场外" } : FundData).beats_benchmark = none ∧
    ({ baseFund with
        code := "X", name := "基金X", yearly_return := some 5,
        subscription_fee := some 0, redemption_fee := some 0,
        sales_service_fee := some 0, transaction_cost := some 0,
        other_fees := some 0, total_annual_fee := some 0.002,
        scale := 0, establish_date := some "", benchmark := some "",
        fund_type := some "场外" } : FundData).beats_benchmark_amount = none := by
  have hEq : getFundData (fun _ => none) "X" (some (CommonData.mk none none none none))
      (some (PerformanceData.mk none (some 5) none none none)) none =
      some { baseFund with
              code := "X", name := "基金X", yearly_return := some 5,
              subscription_fee := some 0, redemption_fee := some 0,
              sales_service_fee := some 0, transaction_cost := some 0,
              other_fees := some 0, total_annual_fee := some 0.002,
              scale := 0, establish_date := some "", benchmark := some "",
              fund_type := some "场外" } := by
    norm_num [getFundData, extractFeesData, defaultFees, pyOrS, fundTypeOf,
      round2, roundHalfEven, baseFund, FundData.mk.injEq]
    exact ⟨by decide, by decide⟩
  exact ⟨rfl, hEq,
    (excess_return_absent_neutral (fun _ => none) "X" _ _ none _ rfl hEq).1,
    (excess_return_absent_neutral (fun _ => none) "X" _ _ none _ rfl hEq).2.1⟩

/-- C10: a fund whose `establish_date` is a nonempty string that fails to
parse as `YYYY-MM-DD` gets the neutral stability score 8.0, and is
silently skipped when the cohort's age pool is built (it changes no
other fund's stability score). -/
theorem stability_malformed_date (clock : ℕ → ℚ) (fund : FundData)
    (all_funds : List FundData) (s : String)
    (hs : fund.establish_date = some s) (hne : s ≠ "") (hp : parseDate s = none) :
    scoreStabilityRelative clock fund all_funds = 8 ∧
    (∀ (g : FundData) (clock2 : ℕ → ℚ),
        scoreStabilityRelative clock2 g (fund :: all_funds) =
        scoreStabilityRelative clock2 g all_funds) := by
  have htd : truthyDate fund.establish_date = some s := by
    simp [truthyDate, hs, hne]
  have hages : ∀ (clock2 : ℕ → ℚ) (k : ℕ),
      stabilityAges clock2 (fund :: all_funds) k = stabilityAges clock2 all_funds k := by
    intro clock2 k
    simp [stabilityAges, htd, hp]
  constructor
  · unfold scoreStabilityRelative
    dsimp only
    split_ifs with h
    · rfl
    · simp [htd, hp]
  · intro g clock2
    unfold scoreStabilityRelative
    rw [hages]

/-- Witness for C10 with the malformed date string `"bad-date"`. -/
theorem stability_malformed_date_witness :
    ({ baseFund with establish_date := some "bad-date" : FundData }.establish_date
        = some "bad-date" ∧ "bad-date" ≠ "" ∧ parseDate "bad-date" = none) ∧
    scoreStabilityRelative (fun _ => 0)
      { baseFund with establish_date := some "bad-date" } [baseFund] = 8 ∧
    scoreStabilityRelative (fun _ => 0) baseFund
      ({ baseFund with establish_date := some "bad-date" } :: [baseFund]) =
    scoreStabilityRelative (fun _ => 0) baseFund [baseFund] :=
  ⟨⟨rfl, by decide, by decide⟩,
   (stability_malformed_date (fun _ => 0) _ [baseFund] "bad-date" rfl (by decide)
      (by decide)).1,
   (stability_malformed_date (fun _ => 0) _ [baseFund] "bad-date" rfl (by decide)
      (by decide)).2 baseFund (fun _ => 0)⟩

/-- C9 (amended): the scoring engine is a pure function of the cohort and
of the sequence of `datetime.now()` samples — two runs on the identical
cohort in which every clock sample returns the same instant produce
identical composite and factor scores. -/
theorem score_fund_deterministic (ann : ℚ → ℚ) (clock1 clock2 : ℕ → ℚ)
    (fund : FundData) (allFunds : Option (List FundData))
    (h : ∀ k, clock1 k = clock2 k) :
    scoreFund ann clock1 fund allFunds = scoreFund ann clock2 fund allFunds := by
  have hc : clock1 = clock2 := funext h
  rw [hc]

/-- Witness for the amended C9 with two pointwise-equal clocks. -/
theorem score_fund_deterministic_witness :
    scoreFund (fun r => r) (fun k => (k : ℚ) + 1) baseFund (some [baseFund]) =
    scoreFund (fun r => r) (fun k => 1 + (k : ℚ)) baseFund (some [baseFund]) :=
  score_fund_deterministic (fun r => r) _ _ baseFund (some [baseFund])
    (fun k => add_comm (k : ℚ) 1)

/-- C9 counterexample: the "current moment" is NOT captured once per run —
`datetime.now()` is re-sampled at each age computation.  Two runs over
the identical two-fund cohort whose clocks agree on the first two
samples (the same "current moment" snapshot at the start of the run)
but whose third sample lies one day later (the clock ticking past
midnight mid-run) yield different stability factor scores, hence
non-bit-identical results. -/
theorem score_fund_clock_counterexample :
    (fun _ : ℕ => (2001/2 : ℚ)) 0 = (fun k : ℕ => if k = 2 then (2003/2 : ℚ) else 2001/2) 0 ∧
    (fun _ : ℕ => (2001/2 : ℚ)) 1 = (fun k : ℕ => if k = 2 then (2003/2 : ℚ) else 2001/2) 1 ∧
    (scoreFund (fun r => r) (fun _ => 2001/2)
      { baseFund with establish_date := some "1970-01-01" }
      (some [{ baseFund with establish_date := some "1969-12-31" },
             { baseFund with establish_date := some "1970-01-01" }])).2.stability ≠
    (scoreFund (fun r => r) (fun k => if k = 2 then 2003/2 else 2001/2)
      { baseFund with establish_date := some "1970-01-01" }
      (some [{ baseFund with establish_date := some "1969-12-31" },
             { baseFund with establish_date := some "1970-01-01" }])).2.stability := by
  have h1 : parseDate "1970-01-01" = some 0 := by decide
  have h2 : parseDate "1969-12-31" = some (-1) := by decide
  refine ⟨rfl, by norm_num, ?_⟩
  have e1 : (scoreFund (fun r => r) (fun _ => 2001/2)
      { baseFund with establish_date := some "1970-01-01" }
      (some [{ baseFund with establish_date := some "1969-12-31" },
             { baseFund with establish_date := some "1970-01-01" }])).2.stability = 17/2 := by
    simp [scoreFund, scoreStabilityRelative, stabilityAges, truthyDate, h1, h2,
      ageFrom, pct, stabBand, baseFund]
    norm_num [List.countP, List.countP.go]
  have e2 : (scoreFund (fun r => r) (fun k => if k = 2 then 2003/2 else 2001/2)
      { baseFund with establish_date := some "1970-01-01" }
      (some [{ baseFund with establish_date := some "1969-12-31" },
             { baseFund with establish_date := some "1970-01-01" }])).2.stability = 15 := by
    simp [scoreFund, scoreStabilityRelative, stabilityAges, truthyDate, h1, h2,
      ageFrom, pct, stabBand, baseFund]
    norm_num [List.countP, List.countP.go]
  rw [e1, e2]
  norm_num

/-! ### Batch fetch -/

/-- When the code list fits into one chunk, the batch loop is a single
`batchStep`. -/
theorem batchGetFundData_single (doFetch : String → FetchOutcome) (bs : ℕ)
    (hbs : 0 < bs) (l : List String) (h : l.length ≤ bs) :
    batchGetFundData doFetch bs hbs l = batchStep doFetch l := by
  cases l with
  | nil => simp [batchGetFundData, batchStep]
  | cons c cs =>
    have ht : (c :: cs).take bs = c :: cs := List.take_of_length_le h
    have hd : (c :: cs).drop bs = [] := List.drop_eq_nil_of_le h
    simp only [batchGetFundData, ht, hd]
    simp [batchStep]

/-- C3 counterexample: `batch_get_fund_data` does not deduplicate — for
the identifier list `["A", "B", "A"]` with both fetches succeeding, the
returned collection holds the entity for `"A"` twice, not once. -/
theorem batch_dedup_counterexample :
    (batchGetFundData
        (fun c => if c = "A" then .fund { baseFund with code := "A" }
                  else if c = "B" then .fund { baseFund with code := "B" }
                  else .nofund)
        10 (by norm_num) ["A", "B", "A"]).1 =
      [{ baseFund with code := "A" }, { baseFund with code := "B" },
       { baseFund with code := "A" }] ∧
    (batchGetFundData
        (fun c => if c = "A" then .fund { baseFund with code := "A" }
                  else if c = "B" then .fund { baseFund with code := "B" }
                  else .nofund)
        10 (by norm_num) ["A", "B", "A"]).1.countP
      (fun f => f.code = "A") ≠ 1 := by
  rw [batchGetFundData_single _ _ _ _ (by norm_num)]
  refine ⟨by simp [batchStep], ?_⟩
  simp [batchStep, List.countP_cons]

/-- C3 (amended): the orchestrator performs no deduplication — every
occurrence of an identifier is dispatched and every success is appended,
so `["A", "B", "A"]` with all fetches succeeding yields the entity for
`"A"` twice and for `"B"` once, in input order, with an empty exception
list. -/
theorem batch_no_dedup (doFetch : String → FetchOutcome) (fa fb : FundData)
    (ha : doFetch "A" = .fund fa) (hb : doFetch "B" = .fund fb) :
    batchGetFundData doFetch 10 (by norm_num) ["A", "B", "A"] = ([fa, fb, fa], []) := by
  rw [batchGetFundData_single _ _ _ _ (by norm_num)]
  simp [batchStep, ha, hb]

/-- Witness for the amended C3. -/
theorem batch_no_dedup_witness :
    batchGetFundData
      (fun c => if c = "A" then .fund { baseFund with code := "A" }
                else if c = "B" then .fund { baseFund with code := "B" }
                else .nofund)
      10 (by norm_num) ["A", "B", "A"] =
    ([{ baseFund with code := "A" }, { baseFund with code := "B" },
      { baseFund with code := "A" }], []) :=
  batch_no_dedup _ _ _ rfl rfl

/-- C5 (amended): a per-identifier failure does not abort the batch: with
three identifiers of which one 404s on the mandatory `common-data`
sub-resource, the returned list holds exactly the two successes; the
`NotFound` identifier produces `None`, which is appended neither to the
result nor to the local `failed` list (that list only collects raised
exceptions, stays empty here, and is never returned or classified). -/
theorem batch_partial_failure (names : String → Option String) (prov : Provider)
    (a b c : String) (fa fc : FundData)
    (hb : prov.common b = ApiOutcome.httpErr 404)
    (ha : clientGetFundData names prov a = some fa)
    (hc : clientGetFundData names prov c = some fc) :
    batchGetFundData (clientFetch names prov) 10 (by norm_num) [a, b, c] =
      ([fa, fc], []) := by
  have hnb : clientFetch names prov b = .nofund := by
    unfold clientFetch clientGetFundData
    rw [hb]
    rfl
  have hfa : clientFetch names prov a = .fund fa := by
    unfold clientFetch
    rw [ha]
  have hfc : clientFetch names prov c = .fund fc := by
    unfold clientFetch
    rw [hc]
  rw [batchGetFundData_single _ _ _ _ (by norm_num)]
  simp [batchStep, hfa, hnb, hfc]

/-- C5 counterexample: with identifiers `["A", "B", "C"]` where `"B"` is
`NotFound` (404), the returned collection does have exactly 2 entities,
but the local `failed` list is empty — not a 1-entry `NotFound`-classified
failure list — and the method returns no failure list at all. -/
theorem batch_failure_list_counterexample :
    (batchGetFundData (clientFetch (fun _ => none) sampleProvider) 10 (by norm_num)
        ["A", "B", "C"]).1.length = 2 ∧
    (batchGetFundData (clientFetch (fun _ => none) sampleProvider) 10 (by norm_num)
        ["A", "B", "C"]).2 = [] := by
  have hAB : ("A" : String) ≠ "B" := by decide
  have hCB : ("C" : String) ≠ "B" := by decide
  rw [batchGetFundData_single _ _ _ _ (by norm_num)]
  constructor <;>
    simp [batchStep, clientFetch, clientGetFundData, sampleProvider, fetchApi, getFundData,
      hAB, hCB]

/-- Witness for the amended C5 at `sampleProvider`. -/
theorem batch_partial_failure_witness :
    sampleProvider.common "B" = ApiOutcome.httpErr 404 ∧
    clientGetFundData (fun _ => none) sampleProvider "A" =
      some (sampleFetched "A" "基金A") ∧
    clientGetFundData (fun _ => none) sampleProvider "C" =
      some (sampleFetched "C" "基金C") ∧
    batchGetFundData (clientFetch (fun _ => none) sampleProvider) 10 (by norm_num)
        ["A", "B", "C"] =
      ([sampleFetched "A" "基金A", sampleFetched "C" "基金C"], []) := by
  have hAB : ("A" : String) ≠ "B" := by decide
  have hCB : ("C" : String) ≠ "B" := by decide
  have hA : clientGetFundData (fun _ => none) sampleProvider "A" =
      some (sampleFetched "A" "基金A") := by
    norm_num [clientGetFundData, sampleProvider, fetchApi, getFundData, extractFeesData,
      defaultFees, pyOrS, fundTypeOf, sampleFetched, baseFund, FundData.mk.injEq, hAB]
    exact ⟨by decide, by decide⟩
  have hC : clientGetFundData (fun _ => none) sampleProvider "C" =
      some (sampleFetched "C" "基金C") := by
    norm_num [clientGetFundData, sampleProvider, fetchApi, getFundData, extractFeesData,
      defaultFees, pyOrS, fundTypeOf, sampleFetched, baseFund, FundData.mk.injEq, hCB]
    exact ⟨by decide, by decide⟩
  exact ⟨rfl, hA, hC,
    batch_partial_failure (fun _ => none) sampleProvider "A" "B" "C" _ _ rfl hA hC⟩

/-! ### Normalization units -/

/-- C6 counterexample: normalization divides fee fields by 100 but leaves
return fields in provider percent units (only rounded): a provider value
`0.15` becomes `0.0015` as a management fee but stays `0.15` as a
year-to-date return. -/
theorem normalize_units_counterexample :
    ∃ fd : FundData,
      getFundData (fun _ => none) "X" (some (CommonData.mk none none none none))
        (some (PerformanceData.mk none (some 0.15) none none none))
        (some (FeesData.mk (some (FeesObj.mk (some 0.15) none none none none)))) =
        some fd ∧
      fd.management_fee = 0.0015 ∧
      fd.yearly_return = some 0.15 ∧
      fd.yearly_return ≠ some 0.0015 := by
  refine ⟨_, rfl, ?_, ?_, ?_⟩
  · show pyOr (some 0.15) 0.15 / 100 = 0.0015
    norm_num [pyOr]
  · show (Option.map round2 (some 0.15)) = some 0.15
    norm_num [round2, roundHalfEven]
  · show (Option.map round2 (some 0.15)) ≠ some 0.0015
    norm_num [round2, roundHalfEven]

/-- C6 (amended): at normalization the five fee components and the
derived total are converted from provider percentages to fractional form
(divided by 100), while the three return fields are only rounded to two
decimals and remain in provider percent units. -/
theorem normalize_units (names : String → Option String) (code : String)
    (cd : CommonData) (p : PerformanceData) (fo : FeesObj) :
    ∃ fd : FundData,
      getFundData names code (some cd) (some p) (some (FeesData.mk (some fo))) = some fd ∧
      fd.management_fee = pyOr fo.managementFee 0.15 / 100 ∧
      fd.custody_fee = pyOr fo.custodianFee 0.05 / 100 ∧
      fd.sales_service_fee = some (pyOr fo.distributionFee 0 / 100) ∧
      fd.transaction_cost = some (pyOr fo.tradeCost 0 / 100) ∧
      fd.other_fees = some (pyOr fo.otherCost 0 / 100) ∧
      fd.total_annual_fee = some (pyOr fo.managementFee 0.15 / 100
        + pyOr fo.custodianFee 0.05 / 100 + pyOr fo.distributionFee 0 / 100
        + pyOr fo.tradeCost 0 / 100 + pyOr fo.otherCost 0 / 100) ∧
      fd.yearly_return = p.ytd.map round2 ∧
      fd.return_3year = p.y3.map round2 ∧
      fd.return_5year = p.y5.map round2 :=
  ⟨_, rfl, rfl, rfl, rfl, rfl, rfl, rfl, rfl, rfl, rfl⟩

/-! ### Ranking -/

/-- Inserting under `scoreGE` never reorders elements of any fixed score
class: filtering a score class out of `orderedInsert` is the same as
filtering it out of plain `cons`. -/
theorem orderedInsert_filter_score (q : ℚ) (a : ScoredFund) (l : List ScoredFund) :
    (l.orderedInsert scoreGE a).filter (fun x => x.score = q) =
    ((a :: l).filter (fun x => x.score = q)) := by
  induction l with
  | nil => rfl
  | cons y ys ih =>
    by_cases hay : scoreGE a y
    · rw [List.orderedInsert_of_le _ _ hay]
    · rw [List.orderedInsert, if_neg hay]
      have hlt : a.score < y.score := lt_of_not_le hay
      by_cases hyq : y.score = q <;> by_cases haq : a.score = q
      · exact absurd (haq ▸ hyq) (ne_of_gt hlt)
      · simp only [List.filter_cons, ih]
        simp [hyq, haq]
      · simp only [List.filter_cons, ih]
        simp [hyq, haq]
      · simp only [List.filter_cons, ih]
        simp [hyq, haq]

/-- Filtering any fixed score class commutes with the stable descending
sort: ties keep their input order. -/
theorem insertionSort_filter_score (q : ℚ) (l : List ScoredFund) :
    (l.insertionSort scoreGE).filter (fun x => x.score = q) =
    l.filter (fun x => x.score = q) := by
  induction l with
  | nil => rfl
  | cons a l ih =>
    rw [List.insertionSort, orderedInsert_filter_score]
    simp only [List.filter_cons, ih]

/-- C4 (amended): the final ranked sequence is the scored collection
sorted by composite score descending; entities with identical composite
scores keep their relative order from the input iteration (stable sort) —
no identifier tie-break is applied, so tie order depends on the input
order of the scored collection. -/
theorem rank_sorted_stable (ann : ℚ → ℚ) (clock : ℕ → ℚ) (funds : List FundData) :
    (rankFunds ann clock funds).Sorted scoreGE ∧
    (rankFunds ann clock funds).Perm (scoredList ann clock funds) ∧
    ∀ q : ℚ, (rankFunds ann clock funds).filter (fun x => x.score = q) =
      (scoredList ann clock funds).filter (fun x => x.score = q) :=
  ⟨List.sorted_insertionSort scoreGE _, List.perm_insertionSort scoreGE _,
   fun q => insertionSort_filter_score q _⟩

/-- C4 counterexample: two funds with identical composite scores and
identifiers `"B"` (first in input order) and `"A"` stay in input order
`["B", "A"]` in the final ranked sequence — the claimed ascending
identifier tie-break would have produced `["A", "B"]`. -/
theorem rank_tiebreak_counterexample :
    (scoreFund (fun r => r) (fun _ => 0) { baseFund with code := "B" }
        (some [{ baseFund with code := "B" }, { baseFund with code := "A" }])).1 =
      (scoreFund (fun r => r) (fun _ => 0) { baseFund with code := "A" }
        (some [{ baseFund with code := "B" }, { baseFund with code := "A" }])).1 ∧
    (rankFunds (fun r => r) (fun _ => 0)
        [{ baseFund with code := "B" }, { baseFund with code := "A" }]).map
      (fun x => x.fund.code) = ["B", "A"] ∧
    (rankFunds (fun r => r) (fun _ => 0)
        [{ baseFund with code := "B" }, { baseFund with code := "A" }]).map
      (fun x => x.fund.code) ≠ ["A", "B"] := by
  have hB : (scoreFund (fun r => r) (fun _ => 0) { baseFund with code := "B" }
        (some [{ baseFund with code := "B" }, { baseFund with code := "A" }])).1 = 58 := by
    simp [scoreFund, scoreFeesRelative, scoreScaleRelative, scoreShortTermRelative,
      scoreLongTermRelative, scoreBeatsBenchmarkRelative, scoreStabilityRelative,
      stabilityAges, feePool, scalePool, scaleDeviations, scalePercentile, ytdPool,
      longPool, benchPool, truthyDate, pct, scaleBand, baseFund]
    norm_num [List.countP, List.countP.go]
  have hA : (scoreFund (fun r => r) (fun _ => 0) { baseFund with code := "A" }
        (some [{ baseFund with code := "B" }, { baseFund with code := "A" }])).1 = 58 := by
    simp [scoreFund, scoreFeesRelative, scoreScaleRelative, scoreShortTermRelative,
      scoreLongTermRelative, scoreBeatsBenchmarkRelative, scoreStabilityRelative,
      stabilityAges, feePool, scalePool, scaleDeviations, scalePercentile, ytdPool,
      longPool, benchPool, truthyDate, pct, scaleBand, baseFund]
    norm_num [List.countP, List.countP.go]
  have hmap : (rankFunds (fun r => r) (fun _ => 0)
      [{ baseFund with code := "B" }, { baseFund with code := "A" }]).map
      (fun x => x.fund.code) = ["B", "A"] := by
    unfold rankFunds sortScoredDesc scoredList
    simp only [List.map]
    rw [List.insertionSort, List.insertionSort, List.insertionSort]
    rw [List.orderedInsert, List.orderedInsert, if_pos]
    · simp
    · show scoreGE _ _
      unfold scoreGE
      dsimp only
      rw [hA, hB]
  exact ⟨hB.trans hA.symm, hmap, by rw [hmap]; decide⟩

end FundInsight
